import Mathlib

/-!
Verification development for the picpro repository: a chip-metadata catalog,
a stateful programming-session protocol, and the surrounding CLI scripts
(backup_and_erase.py, list_chips.py, test_16f887_zif.py, test_zif_hardware.py).

The CLI scripts under src/ are embedded directly from their Python source.
The core library components (ChipInfoReader / catalog, Connection / session,
orchestrated workflows) are imported by those scripts from the picpro package
and are not present under src/; they are modelled from the specification, and
each such definition carries a doc comment saying so.
-/

namespace Picpro

/-! ## Data model -/

/-- Core architecture tag of a chip family (spec section 3: ChipProfile). -/
inductive CoreType where
  | classic12bit
  | classic14bit
  | enhanced14bit
  | pic18
deriving DecidableEq, Repr

/-- Modelled from the spec: ChipProfile, the immutable record describing one
chip variant, produced by the catalog (picpro.ChipInfoReader is not under
src/; the fields are the ones the scripts read: chip_name, rom_size,
eeprom_size, chip_id, core_type, flash_chip, icsp_only). -/
structure ChipProfile where
  chip_name : String
  rom_size : Nat
  eeprom_size : Nat
  chip_id : Nat
  core_type : CoreType
  flash_chip : Bool
  icsp_only : Bool
deriving DecidableEq, Repr

/-! ## find_chip_data (src/list_chips.py lines 10-22) -/

/-- Error raised by find_chip_data when no candidate path exists
(Python FileNotFoundError). -/
inductive FsError where
  | fileNotFoundError (msg : String)
deriving DecidableEq, Repr

/-- The three candidate paths searched by find_chip_data, in order:
script-relative usr/share/picpro/chipdata.cid, the absolute
/usr/share/picpro/chipdata.cid, then chipdata.cid in the working
directory (src/list_chips.py lines 12-16). -/
def chipDataCandidates (scriptDir : String) : List String :=
  [ scriptDir ++ "/usr/share/picpro/chipdata.cid",
    "/usr/share/picpro/chipdata.cid",
    "chipdata.cid" ]

/-- The for-loop of find_chip_data: return the first path for which
path.exists() is true. -/
def firstExisting (ex : String → Bool) : List String → Option String
  | [] => none
  | p :: ps => if ex p then some p else firstExisting ex ps

/-- find_chip_data from src/list_chips.py: try the candidate paths in order,
return the first that exists, raise FileNotFoundError otherwise. The
filesystem is abstracted as the predicate ex. -/
def find_chip_data (scriptDir : String) (ex : String → Bool) :
    Except FsError String :=
  match firstExisting ex (chipDataCandidates scriptDir) with
  | some path => .ok path
  | none => .error (.fileNotFoundError "chipdata.cid file not found")

/-! ## backup_and_erase.py (src/backup_and_erase.py) -/

/-- Python str.lower over the characters of the string (the script only
compares ASCII responses). -/
def pyLower (s : String) : String := ⟨s.data.map Char.toLower⟩

/-- Observable events of the backup_and_erase.py script: a printed line, the
confirmation prompt, and the construction of the backup / erase command
strings (the calls to backup_chip / erase_chip). -/
inductive MainEvent where
  | outLine (s : String)
  | promptEv
  | backupBuilt (cmd : String)
  | eraseBuilt (cmd : String)
deriving DecidableEq, Repr

/-- backup_chip from src/backup_and_erase.py lines 12-21: prints its banner
and returns the picpro read command string. -/
def backup_chip (chip_type port output_file : String) :
    String × List MainEvent :=
  let cmd := "picpro read --pic_type " ++ chip_type ++ " --port " ++ port
      ++ " --icsp rom --hex_file " ++ output_file
  (cmd,
   [ .outLine ("📖 Creating backup of " ++ chip_type.toUpper ++ " via ICSP..."),
     .outLine ("   Port: " ++ port),
     .outLine ("   Output: " ++ output_file),
     .outLine ("🔧 Command: " ++ cmd),
     .backupBuilt cmd ])

/-- erase_chip from src/backup_and_erase.py lines 23-30: prints its banner
and returns the picpro erase command string. -/
def erase_chip (chip_type port : String) : String × List MainEvent :=
  let cmd := "picpro erase --pic_type " ++ chip_type ++ " --port " ++ port
      ++ " --icsp"
  (cmd,
   [ .outLine ("🗑️  Erasing " ++ chip_type.toUpper ++ "..."),
     .outLine ("   Port: " ++ port),
     .outLine ("🔧 Command: " ++ cmd),
     .eraseBuilt cmd ])

/-- Result of one run of the backup_and_erase.py main function: the exit
code and the chronological event trace. -/
structure MainResult where
  exitCode : Nat
  trace : List MainEvent
deriving DecidableEq, Repr

/-- main from src/backup_and_erase.py lines 32-92, after argument parsing and
backup-filename resolution (argparse and the timestamp-generated default
filename are CLI glue; chip_type, port, output arrive as parameters and
response is the string returned by input()). -/
def main_run (chip_type port output : String) (dry_run : Bool)
    (response : String) : MainResult :=
  let header : List MainEvent :=
    [ .outLine "🔌 ICSP Backup and Erase Operation",
      .outLine "========================================",
      .outLine ("Chip: " ++ chip_type.toUpper),
      .outLine ("Port: " ++ port),
      .outLine ("Backup file: " ++ output),
      .outLine ("Dry run: " ++ (if dry_run then "True" else "False")),
      .outLine "" ]
  let bk := backup_chip chip_type port output
  if dry_run then
    let er := erase_chip chip_type port
    { exitCode := 0,
      trace := header ++ bk.2
        ++ [ .outLine "DRY RUN - Commands that would be executed:",
             .outLine ("1. " ++ bk.1) ]
        ++ er.2
        ++ [ .outLine ("2. " ++ er.1) ] }
  else
    let prePrompt : List MainEvent :=
      header ++ bk.2
        ++ [ .outLine "⚠️  READY TO EXECUTE:",
             .outLine "1. Create backup",
             .outLine "2. Erase chip",
             .outLine "",
             .promptEv ]
    if pyLower response ≠ "y" then
      { exitCode := 0, trace := prePrompt ++ [ .outLine "Operation cancelled." ] }
    else
      let er := erase_chip chip_type port
      { exitCode := 0,
        trace := prePrompt
          ++ [ .outLine "\n🚀 Starting backup and erase sequence...",
               .outLine "\n📖 Step 1: Creating backup...",
               .outLine ("Executing: " ++ bk.1) ]
          ++ er.2
          ++ [ .outLine "\n🗑️  Step 2: Erasing chip...",
               .outLine ("Executing: " ++ er.1),
               .outLine "\n✅ Operations completed!",
               .outLine ("Backup saved to: " ++ output),
               .outLine "Chip has been erased." ] }

/-- The suffix of a trace starting at the confirmation prompt; empty when no
prompt occurred. -/
def afterPrompt : List MainEvent → List MainEvent
  | [] => []
  | .promptEv :: t => .promptEv :: t
  | _ :: t => afterPrompt t

/-! ## ChipCatalog (spec sections 3 and 4.1; picpro.ChipInfoReader is not
under src/) -/

/-- Errors of catalog construction (spec section 7: CatalogError). -/
inductive CatalogError where
  | NotFound
  | Malformed
  | DuplicateEntry
deriving DecidableEq, Repr

/-- Error of catalog lookup for an identifier with no record. -/
inductive LookupError where
  | UnknownChip
deriving DecidableEq, Repr

/-- Modelled from the spec: one raw record of the chip-definition file, a
fixed field layout encoding one chip (name, ROM size, EEPROM size, device-ID
word, core tag, flash flag, ICSP-only flag); the concrete file format of
chipdata.cid is not under src/. -/
structure RawRecord where
  fields : List String
deriving DecidableEq, Repr

/-- Modelled from the spec: the chip-definition file as handed to the loader,
a sequence of records plus whether the file was cut off mid-record
(truncated); the file reader itself is not under src/. -/
structure CatalogFile where
  records : List RawRecord
  truncated : Bool
deriving DecidableEq, Repr

/-- Parse a decimal integer field: all characters must be digits and the
field must be non-empty, failing otherwise. -/
def parseNat (s : String) : Option Nat :=
  if s.data ≠ [] ∧ s.data.all Char.isDigit then
    some (s.data.foldl (fun n c => n * 10 + (c.toNat - 48)) 0)
  else none

/-- Parse a core architecture tag field. -/
def parseCore : String → Option CoreType
  | "classic-12bit" => some .classic12bit
  | "classic-14bit" => some .classic14bit
  | "enhanced-14bit" => some .enhanced14bit
  | "pic18" => some .pic18
  | _ => none

/-- Parse a boolean flag field. -/
def parseFlag : String → Option Bool
  | "0" => some false
  | "1" => some true
  | _ => none

/-- Modelled from the spec: parse one raw record into its normalized
(lower-case) identifier and ChipProfile; a bad field count or a size / id
field that does not parse as an integer makes the record malformed
(spec section 4.1). -/
def parseRecord (r : RawRecord) : Option (String × ChipProfile) :=
  match r.fields with
  | [name, rom, eeprom, cid, core, flash, icsp] =>
    match parseNat rom, parseNat eeprom, parseNat cid,
        parseCore core, parseFlag flash, parseFlag icsp with
    | some romN, some eepromN, some cidN, some coreT, some flashB, some icspB =>
      if name = "" then none
      else some (pyLower name,
        ⟨pyLower name, romN, eepromN, cidN, coreT, flashB, icspB⟩)
    | _, _, _, _, _, _ => none
  | _ => none

/-- Parse every record of the file, failing on the first malformed one. -/
def parseAll : List RawRecord → Option (List (String × ChipProfile))
  | [] => some []
  | r :: rs =>
    match parseRecord r, parseAll rs with
    | some p, some ps => some (p :: ps)
    | _, _ => none

/-- The in-memory catalog: the identifier-to-profile mapping, as an
association list in file order. -/
structure ChipCatalog where
  entries : List (String × ChipProfile)
deriving DecidableEq, Repr

/-- Modelled from the spec: load parses the entire file at construction and
fails eagerly — Malformed for a truncated file or any malformed record,
DuplicateEntry when two records share an identifier (spec sections 3, 4.1);
the loader is not under src/. -/
def load (f : CatalogFile) : Except CatalogError ChipCatalog :=
  if f.truncated then .error .Malformed
  else
    match parseAll f.records with
    | none => .error .Malformed
    | some entries =>
      if (entries.map Prod.fst).Nodup then .ok ⟨entries⟩
      else .error .DuplicateEntry

/-- Modelled from the spec: lookup(name) is a case-sensitive exact match on
the normalized identifier, failing with UnknownChip when absent
(spec section 4.1; ChipInfoReader.get_chip is not under src/). -/
def lookup (c : ChipCatalog) (name : String) : Except LookupError ChipProfile :=
  match c.entries.find? (fun e => e.1 == name) with
  | some e => .ok e.2
  | none => .error .UnknownChip

/-- list_names as used by src/list_chips.py line 29: the identifiers of the
catalog, sorted lexicographically (sorted(reader.chip_entries.keys())). -/
def list_names (c : ChipCatalog) : List String :=
  List.insertionSort (· ≤ ·) (c.entries.map Prod.fst)

/-! ## ProgrammingSession state machine (spec section 4.3; the session /
Connection code of the picpro package is not under src/) -/

/-- Session states (spec section 4.3). -/
inductive ProgramState where
  | Disconnected
  | Connected
  | ProgramModeEntered
  | Reading
  | Writing
  | Erasing
deriving DecidableEq, Repr

/-- Session errors (spec section 7: SessionError). -/
inductive SessionError where
  | InvalidState
  | ModeEntryFailed
  | UnsupportedMode
  | SizeMismatch
  | ReadTruncated
  | ChecksumMismatch
  | VerifyFailed
  | EraseVerifyFailed
  | DeviceIdUnsupported
  | DeviceUnresponsive
deriving DecidableEq, Repr

/-- Commands a session sends over the TransportLink; the log of these is the
device I/O trace observed by a fake transport. -/
inductive Command where
  | handshake
  | enterMode (icsp : Bool)
  | readRomCmd
  | readEepromCmd
  | readConfigCmd
  | readIdCmd
  | writeRomCmd (data : List Nat)
  | writeEepromCmd (data : List Nat)
  | eraseCmd
  | exitMode
deriving DecidableEq, Repr

/-- A fake programmer device: the responses it gives to each command. -/
structure Device where
  handshakeOk : Bool
  ackMode : Bool
  romData : List Nat
  eepromData : List Nat
  configData : List Nat
  deviceIdSupported : Bool
  deviceId : Nat
  writeVerifyOk : Bool
  eraseVerifyOk : Bool
deriving DecidableEq, Repr

/-- Modelled from the spec: the state a ProgrammingSession holds — its
ChipProfile, its current ProgramState, and the log of commands sent on its
TransportLink (spec section 3). -/
structure SessionState where
  profile : ChipProfile
  state : ProgramState
  sent : List Command
deriving DecidableEq, Repr

/-- Result of one session operation: the session state afterwards, the
transient sub-states entered during the operation, and the outcome (payload
bytes for reads, empty list otherwise). -/
structure OpResult where
  post : SessionState
  entered : List ProgramState
  out : Except SessionError (List Nat)
deriving Repr

/-- Modelled from the spec: connect, Disconnected to Connected; issues the
handshake query and fails with DeviceUnresponsive when the device does not
answer, the session remaining Disconnected (spec sections 4.3 and 8). -/
def connect (dev : Device) (s : SessionState) : OpResult :=
  if s.state ≠ .Disconnected then ⟨s, [], .error .InvalidState⟩
  else
    let s1 : SessionState := ⟨s.profile, s.state, s.sent ++ [.handshake]⟩
    if dev.handshakeOk then
      ⟨⟨s1.profile, .Connected, s1.sent⟩, [], .ok []⟩
    else ⟨s1, [], .error .DeviceUnresponsive⟩

/-- Modelled from the spec: enter_program_mode, Connected to
ProgramModeEntered; checks ICSP compatibility against the profile before
issuing any command (UnsupportedMode), then issues the mode-entry sequence
and fails with ModeEntryFailed when the device does not acknowledge
(spec section 4.3). -/
def enter_program_mode (dev : Device) (icsp : Bool) (s : SessionState) :
    OpResult :=
  if s.state ≠ .Connected then ⟨s, [], .error .InvalidState⟩
  else if s.profile.icsp_only ∧ ¬icsp then ⟨s, [], .error .UnsupportedMode⟩
  else
    let s1 : SessionState := ⟨s.profile, s.state, s.sent ++ [.enterMode icsp]⟩
    if dev.ackMode then
      ⟨⟨s1.profile, .ProgramModeEntered, s1.sent⟩, [], .ok []⟩
    else ⟨s1, [], .error .ModeEntryFailed⟩

/-- Modelled from the spec: read_rom, ProgramModeEntered to Reading and back;
reads exactly profile.rom_size bytes, failing with ReadTruncated when the
device returns fewer; from Connected or Disconnected it fails with
InvalidState and performs no device I/O (spec section 4.3). -/
def read_rom (dev : Device) (s : SessionState) : OpResult :=
  if s.state ≠ .ProgramModeEntered then ⟨s, [], .error .InvalidState⟩
  else
    let s1 : SessionState := ⟨s.profile, .ProgramModeEntered, s.sent ++ [.readRomCmd]⟩
    if dev.romData.length < s.profile.rom_size then
      ⟨s1, [.Reading, .ProgramModeEntered], .error .ReadTruncated⟩
    else
      ⟨s1, [.Reading, .ProgramModeEntered], .ok (dev.romData.take s.profile.rom_size)⟩

/-- Modelled from the spec: read_eeprom, as read_rom with eeprom_size
(spec section 4.3). -/
def read_eeprom (dev : Device) (s : SessionState) : OpResult :=
  if s.state ≠ .ProgramModeEntered then ⟨s, [], .error .InvalidState⟩
  else
    let s1 : SessionState := ⟨s.profile, .ProgramModeEntered, s.sent ++ [.readEepromCmd]⟩
    if dev.eepromData.length < s.profile.eeprom_size then
      ⟨s1, [.Reading, .ProgramModeEntered], .error .ReadTruncated⟩
    else
      ⟨s1, [.Reading, .ProgramModeEntered],
        .ok (dev.eepromData.take s.profile.eeprom_size)⟩

/-- Modelled from the spec: read_config, a single exchange returning the
core-architecture-dependent configuration region (spec section 4.3). -/
def read_config (dev : Device) (s : SessionState) : OpResult :=
  if s.state ≠ .ProgramModeEntered then ⟨s, [], .error .InvalidState⟩
  else
    ⟨⟨s.profile, .ProgramModeEntered, s.sent ++ [.readConfigCmd]⟩,
      [.Reading, .ProgramModeEntered], .ok dev.configData⟩

/-- Modelled from the spec: read_device_id, a single command / response
exchange; fails with DeviceIdUnsupported for devices that do not implement
it, a normal, expected outcome (spec section 4.3). -/
def read_device_id (dev : Device) (s : SessionState) : OpResult :=
  if s.state ≠ .ProgramModeEntered then ⟨s, [], .error .InvalidState⟩
  else
    let s1 : SessionState := ⟨s.profile, .ProgramModeEntered, s.sent ++ [.readIdCmd]⟩
    if dev.deviceIdSupported then ⟨s1, [], .ok [dev.deviceId]⟩
    else ⟨s1, [], .error .DeviceIdUnsupported⟩

/-- Modelled from the spec: write_rom, ProgramModeEntered to Writing and
back; the input length must exactly equal profile.rom_size and the operation
fails with SizeMismatch before any bytes are sent otherwise — no truncation
or padding (spec section 4.3); verify-read mismatch fails with VerifyFailed. -/
def write_rom (dev : Device) (data : List Nat) (s : SessionState) : OpResult :=
  if s.state ≠ .ProgramModeEntered then ⟨s, [], .error .InvalidState⟩
  else if data.length ≠ s.profile.rom_size then ⟨s, [], .error .SizeMismatch⟩
  else
    let s1 : SessionState :=
      ⟨s.profile, .ProgramModeEntered, s.sent ++ [.writeRomCmd data]⟩
    if dev.writeVerifyOk then ⟨s1, [.Writing, .ProgramModeEntered], .ok []⟩
    else ⟨s1, [.Writing, .ProgramModeEntered], .error .VerifyFailed⟩

/-- Modelled from the spec: write_eeprom, as write_rom with eeprom_size
(spec section 4.3). -/
def write_eeprom (dev : Device) (data : List Nat) (s : SessionState) :
    OpResult :=
  if s.state ≠ .ProgramModeEntered then ⟨s, [], .error .InvalidState⟩
  else if data.length ≠ s.profile.eeprom_size then ⟨s, [], .error .SizeMismatch⟩
  else
    let s1 : SessionState :=
      ⟨s.profile, .ProgramModeEntered, s.sent ++ [.writeEepromCmd data]⟩
    if dev.writeVerifyOk then ⟨s1, [.Writing, .ProgramModeEntered], .ok []⟩
    else ⟨s1, [.Writing, .ProgramModeEntered], .error .VerifyFailed⟩

/-- Modelled from the spec: erase, ProgramModeEntered to Erasing and back;
issues the bulk-erase command and fails with EraseVerifyFailed when the
erase-verify does not confirm; from Connected or Disconnected it fails with
InvalidState and performs no device I/O (spec section 4.3). -/
def erase (dev : Device) (s : SessionState) : OpResult :=
  if s.state ≠ .ProgramModeEntered then ⟨s, [], .error .InvalidState⟩
  else
    let s1 : SessionState := ⟨s.profile, .ProgramModeEntered, s.sent ++ [.eraseCmd]⟩
    if dev.eraseVerifyOk then ⟨s1, [.Erasing, .ProgramModeEntered], .ok []⟩
    else ⟨s1, [.Erasing, .ProgramModeEntered], .error .EraseVerifyFailed⟩

/-- Modelled from the spec: exit_program_mode, ProgramModeEntered to
Connected (spec section 4.3). -/
def exit_program_mode (_dev : Device) (s : SessionState) : OpResult :=
  if s.state ≠ .ProgramModeEntered then ⟨s, [], .error .InvalidState⟩
  else ⟨⟨s.profile, .Connected, s.sent ++ [.exitMode]⟩, [], .ok []⟩

/-- Modelled from the spec: disconnect, Connected to Disconnected, releasing
the TransportLink (spec section 4.3). -/
def disconnect (_dev : Device) (s : SessionState) : OpResult :=
  if s.state ≠ .Connected then ⟨s, [], .error .InvalidState⟩
  else ⟨⟨s.profile, .Disconnected, s.sent⟩, [], .ok []⟩

/-- The operations a caller can invoke on a session. -/
inductive SessionOp where
  | connectOp
  | enterOp (icsp : Bool)
  | readRomOp
  | readEepromOp
  | readConfigOp
  | readIdOp
  | writeRomOp (data : List Nat)
  | writeEepromOp (data : List Nat)
  | eraseOp
  | exitOp
  | disconnectOp
deriving DecidableEq, Repr

/-- Dispatch one session operation. -/
def applyOp (dev : Device) (op : SessionOp) (s : SessionState) : OpResult :=
  match op with
  | .connectOp => connect dev s
  | .enterOp icsp => enter_program_mode dev icsp s
  | .readRomOp => read_rom dev s
  | .readEepromOp => read_eeprom dev s
  | .readConfigOp => read_config dev s
  | .readIdOp => read_device_id dev s
  | .writeRomOp data => write_rom dev data s
  | .writeEepromOp data => write_eeprom dev data s
  | .eraseOp => erase dev s
  | .exitOp => exit_program_mode dev s
  | .disconnectOp => disconnect dev s

/-! ## Scoped session runner (spec sections 3, 4.4 and design note on
context-managed sessions; the with-blocks of src/test_16f887_zif.py lines
68-86 delegate teardown to picpro code not under src/) -/

/-- Number of exit_program_mode invocations one operation performs. -/
def opExitCount : SessionOp → Nat
  | .exitOp => 1
  | _ => 0

/-- Number of disconnect invocations one operation performs. -/
def opDiscCount : SessionOp → Nat
  | .disconnectOp => 1
  | _ => 0

/-- Outcome of running a list of mid-session operations, stopping at the
first failure: final state, the first error if any, and how many
exit_program_mode / disconnect invocations the list itself performed. -/
structure BodyResult where
  post : SessionState
  err : Option SessionError
  exitCalls : Nat
  discCalls : Nat
deriving Repr

/-- Run operations in order, stopping at the first error. -/
def runOps (dev : Device) : List SessionOp → SessionState → BodyResult
  | [], s => ⟨s, none, 0, 0⟩
  | op :: rest, s =>
    let r := applyOp dev op s
    match r.out with
    | .error e => ⟨r.post, some e, opExitCount op, opDiscCount op⟩
    | .ok _ =>
      let b := runOps dev rest r.post
      ⟨b.post, b.err, opExitCount op + b.exitCalls, opDiscCount op + b.discCalls⟩

/-- Outcome of a whole scoped session: total exit_program_mode and
disconnect invocation counts, the first body error if any, the final
session state, and whether the TransportLink was released. -/
structure RunResult where
  exitCalls : Nat
  discCalls : Nat
  bodyErr : Option SessionError
  final : SessionState
  linkReleased : Bool
deriving Repr

/-- Modelled from the spec: the scoped session of the with-blocks in
src/test_16f887_zif.py — acquire the link and enter program mode, run the
body operations, then unconditionally exit program mode and disconnect
exactly once each, regardless of body success or failure (spec sections 3
and 4.4: guaranteed release on all exit paths; the context-manager teardown
code is not under src/). When acquisition itself fails the corresponding
with-block is never entered, so only the already-acquired resources are
released. -/
def runSession (dev : Device) (profile : ChipProfile) (icsp : Bool)
    (ops : List SessionOp) : RunResult :=
  let s0 : SessionState := ⟨profile, .Disconnected, []⟩
  let rc := connect dev s0
  match rc.out with
  | .error e => ⟨0, 0, some e, rc.post, false⟩
  | .ok _ =>
    let re := enter_program_mode dev icsp rc.post
    match re.out with
    | .error e =>
      let rd := disconnect dev re.post
      ⟨0, 1, some e, rd.post, true⟩
    | .ok _ =>
      let b := runOps dev ops re.post
      let rx := exit_program_mode dev b.post
      let rd := disconnect dev rx.post
      ⟨b.exitCalls + 1, b.discCalls + 1, b.err, rd.post, true⟩

/-! ## test_chip_detection (src/test_16f887_zif.py lines 60-90) -/

/-- test_chip_detection from src/test_16f887_zif.py, over the session model:
connect, initialize the programming interface, read the configuration, then
attempt read_device_id inside a try / except whose except branch only prints
— the device-id outcome is swallowed and the function still returns True;
any earlier failure returns False. -/
def test_chip_detection (dev : Device) (profile : ChipProfile)
    (icsp_mode : Bool) : Bool :=
  let s0 : SessionState := ⟨profile, .Disconnected, []⟩
  let rc := connect dev s0
  match rc.out with
  | .error _ => false
  | .ok _ =>
    let re := enter_program_mode dev icsp_mode rc.post
    match re.out with
    | .error _ => false
    | .ok _ =>
      let rcf := read_config dev re.post
      match rcf.out with
      | .error _ => false
      | .ok _ =>
        let _rid := read_device_id dev rcf.post
        true

/-! ## Backup-and-erase workflow (spec section 4.4; the orchestrator that
actually executes the read and erase is not under src/ —
src/backup_and_erase.py only previews shell commands) -/

/-- Result of the backup-and-erase workflow (spec section 4.4:
WorkflowResult). -/
structure WorkflowResult where
  backup_payload : Option (List Nat)
  erase_performed : Bool
  error : Option SessionError
deriving Repr

/-- Modelled from the spec: the ChipOperationOrchestrator backup-and-erase
workflow — connect, enter program mode, read the ROM into a backup payload,
erase only if the read fully succeeded, then exit program mode and
disconnect on every path (spec section 4.4; the orchestrator is not under
src/). Returns the workflow result and the full device command log. -/
def run_backup_and_erase (dev : Device) (profile : ChipProfile)
    (icsp : Bool) : WorkflowResult × List Command :=
  let s0 : SessionState := ⟨profile, .Disconnected, []⟩
  let rc := connect dev s0
  match rc.out with
  | .error e => (⟨none, false, some e⟩, rc.post.sent)
  | .ok _ =>
    let re := enter_program_mode dev icsp rc.post
    match re.out with
    | .error e =>
      let rd := disconnect dev re.post
      (⟨none, false, some e⟩, rd.post.sent)
    | .ok _ =>
      let rr := read_rom dev re.post
      match rr.out with
      | .error e =>
        let rx := exit_program_mode dev rr.post
        let rd := disconnect dev rx.post
        (⟨none, false, some e⟩, rd.post.sent)
      | .ok payload =>
        let rer := erase dev rr.post
        let rx := exit_program_mode dev rer.post
        let rd := disconnect dev rx.post
        match rer.out with
        | .error e => (⟨some payload, false, some e⟩, rd.post.sent)
        | .ok _ => (⟨some payload, true, none⟩, rd.post.sent)

/-! ## Concrete 16f887 catalog (spec section 8 concrete scenario;
src/test_16f887_zif.py lines 27-46) -/

/-- The raw catalog record of the PIC16F887 scenario: name 16f887, ROM size
8192, EEPROM size 256, device id 0x20F0, enhanced 14-bit core, flash chip,
not ICSP-only. -/
def record16f887 : RawRecord :=
  ⟨["16f887", "8192", "256", "8432", "enhanced-14bit", "1", "0"]⟩

/-- A catalog file holding exactly the 16f887 record. -/
def file16f887 : CatalogFile := ⟨[record16f887], false⟩

/-- The ChipProfile encoded by record16f887. -/
def profile16f887 : ChipProfile :=
  ⟨"16f887", 8192, 256, 0x20F0, .enhanced14bit, true, false⟩

/-- The catalog produced by loading file16f887. -/
def catalog16f887 : ChipCatalog := ⟨[("16f887", profile16f887)]⟩

/-! ## Concrete fixtures for instantiating the theorems -/

/-- A fake device whose handshake and mode entry succeed but whose ROM read
returns no bytes, and which does not implement the device-id command. -/
def devShortRom : Device := ⟨true, true, [], [], [0, 0], false, 0, true, true⟩

/-- A session on the 16f887 profile in the Connected state. -/
def sessConnected : SessionState := ⟨profile16f887, .Connected, []⟩

/-- A session on the 16f887 profile in the ProgramModeEntered state. -/
def sessProgMode : SessionState := ⟨profile16f887, .ProgramModeEntered, []⟩

end Picpro

namespace Picpro

/-! # Theorems -/

/-- C10: find_chip_data searches exactly three candidate paths in a fixed
order — the script-relative usr/share/picpro/chipdata.cid, then
/usr/share/picpro/chipdata.cid, then chipdata.cid in the working directory —
returning the first path that exists, and raises FileNotFoundError when none
of the three exists. -/
theorem find_chip_data_three_candidates_in_order
    (scriptDir : String) (ex : String → Bool) :
    chipDataCandidates scriptDir =
      [ scriptDir ++ "/usr/share/picpro/chipdata.cid",
        "/usr/share/picpro/chipdata.cid",
        "chipdata.cid" ] ∧
    find_chip_data scriptDir ex =
      (if ex (scriptDir ++ "/usr/share/picpro/chipdata.cid") then
        .ok (scriptDir ++ "/usr/share/picpro/chipdata.cid")
      else if ex "/usr/share/picpro/chipdata.cid" then
        .ok "/usr/share/picpro/chipdata.cid"
      else if ex "chipdata.cid" then
        .ok "chipdata.cid"
      else .error (.fileNotFoundError "chipdata.cid file not found")) := by
  refine ⟨rfl, ?_⟩
  by_cases h1 : ex (scriptDir ++ "/usr/share/picpro/chipdata.cid") <;>
    by_cases h2 : ex "/usr/share/picpro/chipdata.cid" <;>
      by_cases h3 : ex "chipdata.cid" <;>
        simp [find_chip_data, chipDataCandidates, firstExisting, h1, h2, h3]

/-- C9: in the non-dry-run path of backup_and_erase.py, for every
confirmation response whose lower-cased value is not y, main prints the
cancellation message and returns exit code 0, and the erase command string
is never constructed or announced after the prompt — indeed no erase
command is ever built in that run. -/
theorem main_cancel_skips_erase (chip_type port output response : String)
    (h : pyLower response ≠ "y") :
    (main_run chip_type port output false response).exitCode = 0 ∧
    afterPrompt (main_run chip_type port output false response).trace =
      [.promptEv, .outLine "Operation cancelled."] ∧
    ∀ c, MainEvent.eraseBuilt c ∉
      (main_run chip_type port output false response).trace := by
  refine ⟨?_, ?_, ?_⟩ <;>
    simp [main_run, h, backup_chip, afterPrompt]

/-- Witness for C9 at the concrete response N. -/
theorem main_cancel_skips_erase_witness :
    (pyLower "N" ≠ "y") ∧
    ((main_run "16f887" "/dev/ttyUSB0" "backup.hex" false "N").exitCode = 0 ∧
     afterPrompt (main_run "16f887" "/dev/ttyUSB0" "backup.hex" false "N").trace =
       [.promptEv, .outLine "Operation cancelled."] ∧
     ∀ c, MainEvent.eraseBuilt c ∉
       (main_run "16f887" "/dev/ttyUSB0" "backup.hex" false "N").trace) :=
  ⟨by decide, main_cancel_skips_erase "16f887" "/dev/ttyUSB0" "backup.hex" "N"
    (by decide)⟩

/-- A successful parse of a record list has one entry per record. -/
theorem parseAll_length {rs : List RawRecord} {es : List (String × ChipProfile)}
    (h : parseAll rs = some es) : es.length = rs.length := by
  induction rs generalizing es with
  | nil =>
    simp [parseAll] at h
    subst h
    rfl
  | cons r rest ih =>
    cases hp : parseRecord r with
    | none => simp [parseAll, hp] at h
    | some p =>
      cases hq : parseAll rest with
      | none => simp [parseAll, hp, hq] at h
      | some ps =>
        simp [parseAll, hp, hq] at h
        subst h
        simp [ih hq]

/-- A record list containing a malformed record never parses. -/
theorem parseAll_eq_none_of_bad {rs : List RawRecord} {r : RawRecord}
    (hm : r ∈ rs) (hr : parseRecord r = none) : parseAll rs = none := by
  induction rs with
  | nil => cases hm
  | cons a rest ih =>
    rcases List.mem_cons.mp hm with h | hmem
    · subst h
      simp [parseAll, hr]
    · cases hp : parseRecord a <;> simp [parseAll, hp, ih hmem]

/-- What a successful load guarantees: the file was not truncated, every
record parsed in order, and the identifiers are free of duplicates. -/
theorem load_ok_spec {f : CatalogFile} {cat : ChipCatalog}
    (h : load f = .ok cat) :
    f.truncated = false ∧ parseAll f.records = some cat.entries ∧
    (cat.entries.map Prod.fst).Nodup := by
  by_cases ht : f.truncated
  · simp [load, ht] at h
  · cases hp : parseAll f.records with
    | none => simp [load, ht, hp] at h
    | some es =>
      by_cases hn : (es.map Prod.fst).Nodup
      · simp [load, ht, hp, hn] at h
        subst h
        exact ⟨by simpa using ht, by simp [hp], by simpa using hn⟩
      · simp [load, ht, hp, hn] at h

/-- C3: for every successfully loaded catalog with N valid records,
list_names returns all N identifiers sorted lexicographically with no
duplicates, so its length equals N. -/
theorem list_names_sorted_complete {f : CatalogFile} {cat : ChipCatalog}
    (h : load f = .ok cat) :
    (list_names cat).Sorted (· ≤ ·) ∧ (list_names cat).Nodup ∧
    (list_names cat).length = cat.entries.length ∧
    cat.entries.length = f.records.length := by
  obtain ⟨-, hp, hn⟩ := load_ok_spec h
  refine ⟨List.sorted_insertionSort _ _, ?_, ?_, ?_⟩
  · exact (List.perm_insertionSort _ _).symm.nodup hn
  · rw [list_names, (List.perm_insertionSort _ _).length_eq, List.length_map]
  · rw [parseAll_length hp]

/-- Witness for C3 at the one-record 16f887 catalog. -/
theorem list_names_sorted_complete_witness :
    load file16f887 = .ok catalog16f887 ∧
    ((list_names catalog16f887).Sorted (· ≤ ·) ∧
     (list_names catalog16f887).Nodup ∧
     (list_names catalog16f887).length = catalog16f887.entries.length ∧
     catalog16f887.entries.length = file16f887.records.length) :=
  ⟨by rfl, @list_names_sorted_complete file16f887 catalog16f887 (by rfl)⟩

/-- C7: catalog lookup is a case-sensitive exact match on the lower-case
identifier; for a catalog loaded with the single record name 16f887,
rom_size 8192, eeprom_size 256, device_id 0x20F0, core enhanced-14bit,
icsp_only false, lookup of 16f887 returns exactly those field values and
lookup of any other name fails with UnknownChip. -/
theorem lookup_16f887_exact_fields :
    load file16f887 = .ok catalog16f887 ∧
    lookup catalog16f887 "16f887" =
      .ok ⟨"16f887", 8192, 256, 0x20F0, .enhanced14bit, true, false⟩ ∧
    ∀ n : String, n ≠ "16f887" → lookup catalog16f887 n = .error .UnknownChip := by
  refine ⟨by rfl, by rfl, ?_⟩
  intro n hn
  have hb : (("16f887" : String) == n) = false :=
    beq_eq_false_iff_ne.mpr (Ne.symm hn)
  simp [lookup, catalog16f887, List.find?, hb]

/-- Witness for C7: the upper-cased variant of the identifier is not an
exact match and fails with UnknownChip. -/
theorem lookup_16f887_exact_fields_witness :
    lookup catalog16f887 "16F887" = .error .UnknownChip :=
  lookup_16f887_exact_fields.2.2 "16F887" (by decide)

/-- C8: catalog load fails eagerly at construction — Malformed for a
truncated file or any malformed record, DuplicateEntry for duplicate
identifiers — and every successfully produced catalog has duplicate-free
identifiers, so no later record ever silently overwrote an earlier one. -/
theorem load_fails_eagerly (f : CatalogFile) :
    (f.truncated = true → load f = .error .Malformed) ∧
    ((∃ r ∈ f.records, parseRecord r = none) → load f = .error .Malformed) ∧
    (f.truncated = false →
      ∀ es, parseAll f.records = some es →
        ¬ (es.map Prod.fst).Nodup → load f = .error .DuplicateEntry) ∧
    (∀ cat, load f = .ok cat → (cat.entries.map Prod.fst).Nodup) := by
  refine ⟨?_, ?_, ?_, ?_⟩
  · intro ht
    simp [load, ht]
  · rintro ⟨r, hm, hr⟩
    have hnone := parseAll_eq_none_of_bad hm hr
    by_cases ht : f.truncated <;> simp [load, ht, hnone]
  · intro ht es hp hn
    simp [load, ht, hp, hn]
  · intro cat h
    exact (load_ok_spec h).2.2

/-- Witness for C8 on a truncated file, a bad-field-count record, a
duplicated record, and the well-formed 16f887 file. -/
theorem load_fails_eagerly_witness :
    load ⟨[record16f887], true⟩ = .error .Malformed ∧
    load ⟨[⟨["16f887"]⟩], false⟩ = .error .Malformed ∧
    load ⟨[record16f887, record16f887], false⟩ = .error .DuplicateEntry ∧
    (catalog16f887.entries.map Prod.fst).Nodup :=
  ⟨(load_fails_eagerly ⟨[record16f887], true⟩).1 rfl,
   (load_fails_eagerly ⟨[⟨["16f887"]⟩], false⟩).2.1
     ⟨⟨["16f887"]⟩, by simp, by rfl⟩,
   (load_fails_eagerly ⟨[record16f887, record16f887], false⟩).2.2.1 rfl
     [("16f887", profile16f887), ("16f887", profile16f887)] (by rfl) (by decide),
   (load_fails_eagerly file16f887).2.2.2 catalog16f887 (by rfl)⟩

/-- From any state other than ProgramModeEntered, no operation enters a
transient sub-state. -/
theorem entered_nil_of_not_pm (dev : Device) (s : SessionState)
    (op : SessionOp) (hs : s.state ≠ .ProgramModeEntered) :
    (applyOp dev op s).entered = [] := by
  cases op <;>
    simp only [applyOp, connect, enter_program_mode, read_rom, read_eeprom,
      read_config, read_device_id, write_rom, write_eeprom, erase,
      exit_program_mode, disconnect] <;>
    split_ifs <;> rfl

/-- C2: invoking read_rom, write_rom or erase while the session is Connected
or Disconnected fails with InvalidState and performs no device I/O (the
session state, its command log included, is unchanged); and the
Reading / Writing / Erasing sub-states are entered by no operation except
from ProgramModeEntered. -/
theorem session_invalid_state_guard (dev : Device) (s : SessionState)
    (data : List Nat) :
    (s.state = .Connected ∨ s.state = .Disconnected →
      ((read_rom dev s).out = .error .InvalidState ∧ (read_rom dev s).post = s) ∧
      ((write_rom dev data s).out = .error .InvalidState ∧
        (write_rom dev data s).post = s) ∧
      ((erase dev s).out = .error .InvalidState ∧ (erase dev s).post = s)) ∧
    (∀ op : SessionOp,
      .Reading ∈ (applyOp dev op s).entered ∨
      .Writing ∈ (applyOp dev op s).entered ∨
      .Erasing ∈ (applyOp dev op s).entered →
      s.state = .ProgramModeEntered) := by
  constructor
  · intro h
    have hs : s.state ≠ .ProgramModeEntered := by
      rcases h with h | h <;> simp [h]
    simp [read_rom, write_rom, erase, hs]
  · intro op hmem
    by_cases hs : s.state = .ProgramModeEntered
    · exact hs
    · rw [entered_nil_of_not_pm dev s op hs] at hmem
      simp at hmem

/-- Witness for C2: the guards fire on a Connected session, and read_rom on
a ProgramModeEntered session does enter the Reading sub-state. -/
theorem session_invalid_state_guard_witness :
    (((read_rom devShortRom sessConnected).out = .error .InvalidState ∧
      (read_rom devShortRom sessConnected).post = sessConnected) ∧
     ((write_rom devShortRom [] sessConnected).out = .error .InvalidState ∧
      (write_rom devShortRom [] sessConnected).post = sessConnected) ∧
     ((erase devShortRom sessConnected).out = .error .InvalidState ∧
      (erase devShortRom sessConnected).post = sessConnected)) ∧
    sessProgMode.state = .ProgramModeEntered :=
  ⟨(session_invalid_state_guard devShortRom sessConnected []).1 (Or.inl rfl),
   (session_invalid_state_guard devShortRom sessProgMode []).2 .readRomOp
     (Or.inl (by decide))⟩

/-- C4: a write_rom whose payload length differs from profile.rom_size, and
a write_eeprom whose payload length differs from profile.eeprom_size, fail
with SizeMismatch before any bytes are sent to the device — the session
state and its command log are unchanged, so nothing is truncated or padded
implicitly. -/
theorem write_size_mismatch_guard (dev : Device) (s : SessionState)
    (data : List Nat) (hs : s.state = .ProgramModeEntered) :
    (data.length ≠ s.profile.rom_size →
      (write_rom dev data s).out = .error .SizeMismatch ∧
      (write_rom dev data s).post = s) ∧
    (data.length ≠ s.profile.eeprom_size →
      (write_eeprom dev data s).out = .error .SizeMismatch ∧
      (write_eeprom dev data s).post = s) := by
  constructor <;> intro h <;>
    simp [write_rom, write_eeprom, hs, h]

/-- Witness for C4: an empty payload against the 8192-byte ROM and 256-byte
EEPROM of the 16f887 profile. -/
theorem write_size_mismatch_guard_witness :
    ((write_rom devShortRom [] sessProgMode).out = .error .SizeMismatch ∧
     (write_rom devShortRom [] sessProgMode).post = sessProgMode) ∧
    ((write_eeprom devShortRom [] sessProgMode).out = .error .SizeMismatch ∧
     (write_eeprom devShortRom [] sessProgMode).post = sessProgMode) :=
  ⟨(write_size_mismatch_guard devShortRom sessProgMode [] (by rfl)).1 (by decide),
   (write_size_mismatch_guard devShortRom sessProgMode [] (by rfl)).2 (by decide)⟩

/-- An operation other than exitOp performs no exit_program_mode call. -/
theorem opExitCount_eq_zero {op : SessionOp} (h : op ≠ .exitOp) :
    opExitCount op = 0 := by
  cases op <;> first | rfl | exact absurd rfl h

/-- An operation other than disconnectOp performs no disconnect call. -/
theorem opDiscCount_eq_zero {op : SessionOp} (h : op ≠ .disconnectOp) :
    opDiscCount op = 0 := by
  cases op <;> first | rfl | exact absurd rfl h

/-- A body free of explicit exitOp / disconnectOp operations performs no
teardown calls of its own. -/
theorem runOps_no_teardown (dev : Device) :
    ∀ (ops : List SessionOp) (s : SessionState),
      SessionOp.exitOp ∉ ops → SessionOp.disconnectOp ∉ ops →
      (runOps dev ops s).exitCalls = 0 ∧ (runOps dev ops s).discCalls = 0 := by
  intro ops
  induction ops with
  | nil => intro s _ _; simp [runOps]
  | cons op rest ih =>
    intro s h4 h5
    have hop4 : op ≠ SessionOp.exitOp := fun he => h4 (he ▸ List.mem_cons_self op rest)
    have hop5 : op ≠ SessionOp.disconnectOp := fun he => h5 (he ▸ List.mem_cons_self op rest)
    have h4r : SessionOp.exitOp ∉ rest := fun hm => h4 (List.mem_cons_of_mem op hm)
    have h5r : SessionOp.disconnectOp ∉ rest := fun hm => h5 (List.mem_cons_of_mem op hm)
    cases hr : (applyOp dev op s).out with
    | error e =>
      simp [runOps, hr, opExitCount_eq_zero hop4, opDiscCount_eq_zero hop5]
    | ok v =>
      obtain ⟨hx, hd⟩ := ih (applyOp dev op s).post h4r h5r
      simp [runOps, hr, opExitCount_eq_zero hop4, opDiscCount_eq_zero hop5, hx, hd]

/-- C5: for every sequence of mid-session operations, including sequences
failing mid-session, the scoped runner invokes exit_program_mode and
disconnect exactly once each before the session ends, and the TransportLink
is released on every such exit path. -/
theorem scoped_release (dev : Device) (profile : ChipProfile) (icsp : Bool)
    (ops : List SessionOp)
    (h1 : dev.handshakeOk = true) (h2 : dev.ackMode = true)
    (h3 : profile.icsp_only = false ∨ icsp = true)
    (h4 : SessionOp.exitOp ∉ ops) (h5 : SessionOp.disconnectOp ∉ ops) :
    (runSession dev profile icsp ops).exitCalls = 1 ∧
    (runSession dev profile icsp ops).discCalls = 1 ∧
    (runSession dev profile icsp ops).linkReleased = true := by
  have hcond : ¬(profile.icsp_only = true ∧ icsp = false) := by
    rcases h3 with h3 | h3 <;> simp [h3]
  obtain ⟨hx, hd⟩ := runOps_no_teardown dev ops
    ⟨profile, .ProgramModeEntered, [Command.handshake, Command.enterMode icsp]⟩ h4 h5
  simp [runSession, connect, enter_program_mode, h1, h2, hcond, hx, hd]

/-- Witness for C5: a body whose ROM read fails mid-session still gets
exactly one exit_program_mode and one disconnect. -/
theorem scoped_release_witness :
    SessionOp.exitOp ∉ ([.readRomOp, .eraseOp] : List SessionOp) ∧
    ((runSession devShortRom profile16f887 true [.readRomOp, .eraseOp]).exitCalls = 1 ∧
     (runSession devShortRom profile16f887 true [.readRomOp, .eraseOp]).discCalls = 1 ∧
     (runSession devShortRom profile16f887 true [.readRomOp, .eraseOp]).linkReleased = true) :=
  ⟨by decide,
   scoped_release devShortRom profile16f887 true [.readRomOp, .eraseOp]
     rfl rfl (Or.inl rfl) (by decide) (by decide)⟩

/-- C6: a DeviceIdUnsupported outcome of read_device_id is recoverable — the
test_chip_detection workflow, which does not depend on the device id, gives
the same result whatever the device-id support, read_device_id on an
unsupported device reports the typed error, and the workflow still returns
True when its other steps succeed. -/
theorem device_id_unsupported_recoverable (dev : Device)
    (profile : ChipProfile) (icsp : Bool) :
    (∀ (b : Bool) (n : Nat),
      test_chip_detection { dev with deviceIdSupported := b, deviceId := n }
          profile icsp
        = test_chip_detection dev profile icsp) ∧
    (∀ s : SessionState, s.state = .ProgramModeEntered →
      dev.deviceIdSupported = false →
      (read_device_id dev s).out = .error .DeviceIdUnsupported) ∧
    (dev.handshakeOk = true → dev.ackMode = true →
      (profile.icsp_only = false ∨ icsp = true) →
      test_chip_detection dev profile icsp = true) := by
  refine ⟨?_, ?_, ?_⟩
  · intro b n
    rfl
  · intro s hs hid
    simp [read_device_id, hs, hid]
  · intro h1 h2 h3
    have hcond : ¬(profile.icsp_only = true ∧ icsp = false) := by
      rcases h3 with h3 | h3 <;> simp [h3]
    simp [test_chip_detection, connect, enter_program_mode, read_config,
      h1, h2, hcond]

/-- Witness for C6: a device without device-id support still lets the
detection workflow succeed. -/
theorem device_id_unsupported_recoverable_witness :
    sessProgMode.state = .ProgramModeEntered ∧
    devShortRom.deviceIdSupported = false ∧
    (read_device_id devShortRom sessProgMode).out = .error .DeviceIdUnsupported ∧
    test_chip_detection devShortRom profile16f887 true = true :=
  ⟨rfl, rfl,
   (device_id_unsupported_recoverable devShortRom profile16f887 true).2.1
     sessProgMode rfl rfl,
   (device_id_unsupported_recoverable devShortRom profile16f887 true).2.2
     rfl rfl (Or.inl rfl)⟩

/-- C1: in the backup-and-erase workflow, when the backup read fails — the
handshake fails, program mode is refused, or the device returns fewer bytes
than the profile rom_size — the erase command is never emitted to the
device and the workflow reports erase_performed = false. -/
theorem erase_never_after_failed_backup (dev : Device)
    (profile : ChipProfile) (icsp : Bool)
    (h : dev.handshakeOk = false ∨ dev.ackMode = false ∨
         dev.romData.length < profile.rom_size) :
    Command.eraseCmd ∉ (run_backup_and_erase dev profile icsp).2 ∧
    (run_backup_and_erase dev profile icsp).1.erase_performed = false := by
  rcases h with h | h | h
  · simp [run_backup_and_erase, connect, h]
  · cases hh : dev.handshakeOk
    · simp [run_backup_and_erase, connect, hh]
    · by_cases hc : (profile.icsp_only = true ∧ icsp = false)
      · simp [run_backup_and_erase, connect, enter_program_mode, disconnect,
          hh, hc]
      · simp [run_backup_and_erase, connect, enter_program_mode, disconnect,
          hh, hc, h]
  · cases hh : dev.handshakeOk
    · simp [run_backup_and_erase, connect, hh]
    · by_cases hc : (profile.icsp_only = true ∧ icsp = false)
      · simp [run_backup_and_erase, connect, enter_program_mode, disconnect,
          hh, hc]
      · cases ha : dev.ackMode
        · simp [run_backup_and_erase, connect, enter_program_mode, disconnect,
            hh, hc, ha]
        · simp [run_backup_and_erase, connect, enter_program_mode, read_rom,
            exit_program_mode, disconnect, hh, hc, ha, h]

/-- Witness for C1: a device whose ROM read returns no bytes never sees an
erase command. -/
theorem erase_never_after_failed_backup_witness :
    devShortRom.romData.length < profile16f887.rom_size ∧
    (Command.eraseCmd ∉ (run_backup_and_erase devShortRom profile16f887 true).2 ∧
     (run_backup_and_erase devShortRom profile16f887 true).1.erase_performed = false) :=
  ⟨by decide,
   erase_never_after_failed_backup devShortRom profile16f887 true
     (Or.inr (Or.inr (by decide)))⟩

end Picpro
